import Mathlib

/-!
Shallow embedding of the shield session/nonce lifecycle core.

Sources embedded here:
* `modules/authn/internal/.../session.go` — `DefaultSessionManager`
  (CreateSession, GetSession, ValidateSession, InvalidateSession,
  RefreshSession, CleanupExpiredSessions) over a `SessionRepository`.
* the GORM repository — `GormSessionRepository`
  (CreateSession, GetSessionByID, UpdateSession, DeleteSession,
  DeleteExpiredSessions, GetSessionsByUserID).
* the in-memory nonce validator — `InMemoryNonceValidator`
  (Generate, Validate, Cleanup).

Modelling choices:
* Timestamps and durations are `Int` nanoseconds (Go `time.Time` /
  `time.Duration`); `t.After(u)` is `u < t`, `t.Before(u)` is `t < u`,
  and the SQL comparison `expires_at < ?` is `<`.
* Each Go call to `time.Now()` inside one operation is modelled by a
  single explicit `now` argument to that operation.
* `uuid.New().String()` and the random nonce bytes are modelled as
  explicit `String` arguments; freshness/uniqueness of generated values
  is stated as a hypothesis where a property depends on it.
* The database table is a `List Session`; GORM `First` is `List.find?`,
  `Save` replaces the record with the same primary key (inserting when
  absent), `Delete` filters, and the primary-key constraint makes
  `Create` fail on a duplicate id.
* Go errors are the strings produced by `fmt.Errorf` (the observable
  content of a Go `error` value); operations return
  `Except String α × Store`, pairing the result with the post store.
-/

namespace Shield

/-- Timestamps and durations, in nanoseconds, as in Go `time`. -/
abbrev Time := Int

/-- One hour in nanoseconds (`time.Hour`). -/
def nsPerHour : Int := 3600000000000

/-- Embedding of `models.Session` (user.go): the persisted session record. -/
structure Session where
  id : String
  userID : String
  refreshToken : String
  ipAddress : String
  userAgent : String
  deviceID : String
  expiresAt : Time
  refreshExpiresAt : Time
  isActive : Bool
  createdAt : Time
  updatedAt : Time
deriving Repr, DecidableEq

/-- Embedding of `session.ClientInfo`: advisory client metadata. -/
structure ClientInfo where
  ipAddress : String
  userAgent : String
  deviceID : String
deriving Repr, DecidableEq

/-- Embedding of `session.SessionConfig`. `maxSessions` is a Go `int`, may be ≤ 0. -/
structure SessionConfig where
  sessionTTL : Time
  refreshTTL : Time
  maxSessions : Int
  secureCookies : Bool
deriving Repr, DecidableEq

/-- The session table of the relational store. -/
abbrev Store := List Session

namespace GormSessionRepository

/-- Embedding of `GormSessionRepository.CreateSession`: stamps `CreatedAt`/`UpdatedAt`
with `time.Now()` and inserts; the primary key on `id` makes the insert
fail when a record with the same id already exists. -/
def CreateSession (now : Time) (s : Session) (store : Store) :
    Except String Store :=
  if store.any (fun t => t.id = s.id) then
    .error "duplicate key"
  else
    .ok (store ++ [{ s with createdAt := now, updatedAt := now }])

/-- Embedding of `GormSessionRepository.GetSessionByID`: `Where("id = ?").First`. -/
def GetSessionByID (sessionID : String) (store : Store) : Option Session :=
  store.find? (fun s => s.id = sessionID)

/-- Embedding of `GormSessionRepository.UpdateSession`: stamps `UpdatedAt` and `Save`s
(replace by primary key, insert when absent). -/
def UpdateSession (now : Time) (s : Session) (store : Store) : Store :=
  let s' := { s with updatedAt := now }
  if store.any (fun t => t.id = s.id) then
    store.map (fun t => if t.id = s.id then s' else t)
  else
    store ++ [s']

/-- Embedding of `GormSessionRepository.DeleteSession`: hard delete by id (the model
has no `gorm.DeletedAt` column, so GORM `Delete` removes the row). -/
def DeleteSession (sessionID : String) (store : Store) : Store :=
  store.filter (fun s => !(s.id = sessionID : Bool))

/-- The WHERE clause of `DeleteExpiredSessions`:
`expires_at < now OR (is_active = false AND updated_at < now - 24h)`. -/
def expiredClause (now : Time) (s : Session) : Bool :=
  decide (s.expiresAt < now) ||
    (!s.isActive && decide (s.updatedAt < now - 24 * nsPerHour))

/-- Embedding of `GormSessionRepository.DeleteExpiredSessions`: hard-deletes every row
matching `expiredClause`. -/
def DeleteExpiredSessions (now : Time) (store : Store) : Store :=
  store.filter (fun s => !expiredClause now s)

/-- Embedding of `GormSessionRepository.GetSessionsByUserID`:
`Where("user_id = ? AND is_active = true").Find`. -/
def GetSessionsByUserID (userID : String) (store : Store) : List Session :=
  store.filter (fun s => (s.userID = userID : Bool) && s.isActive)

end GormSessionRepository

namespace DefaultSessionManager

open GormSessionRepository

/-- One step of the eviction scan: keep the strictly earlier-created
session (`s.CreatedAt.Before(oldest.CreatedAt)`), so ties keep the
record seen first. -/
def olderOf (oldest s : Session) : Session :=
  if s.createdAt < oldest.createdAt then s else oldest

/-- The eviction scan of `CreateSession`: start from `existing[0]` and
fold the strictly-before comparison over the whole slice. -/
def evictTarget (existing : List Session) : Option Session :=
  match existing with
  | [] => none
  | h :: _ => some (existing.foldl olderOf h)

/-- The fresh record built at the top of `CreateSession` (the repository
re-stamps `CreatedAt`/`UpdatedAt` with the same clock). -/
def newSession (cfg : SessionConfig) (now : Time)
    (sessionID refreshToken userID : String) (ci : ClientInfo) : Session :=
  { id := sessionID
    userID := userID
    refreshToken := refreshToken
    ipAddress := ci.ipAddress
    userAgent := ci.userAgent
    deviceID := ci.deviceID
    createdAt := now
    expiresAt := now + cfg.sessionTTL
    refreshExpiresAt := now + cfg.refreshTTL
    isActive := true
    updatedAt := now }

/-- The `MaxSessions` block of `CreateSession`: when `MaxSessions > 0`
and the subject's active sessions already number at least `MaxSessions`,
the oldest-by-`CreatedAt` of them is deleted (the delete's error is
discarded by `_ =` in the source). -/
def enforceMaxSessions (cfg : SessionConfig) (userID : String)
    (store : Store) : Store :=
  if 0 < cfg.maxSessions then
    if cfg.maxSessions ≤ ((GetSessionsByUserID userID store).length : Int) then
      match evictTarget (GetSessionsByUserID userID store) with
      | some oldest => DeleteSession oldest.id store
      | none => store
    else store
  else store

/-- Embedding of `DefaultSessionManager.CreateSession`: builds the record, runs the
`MaxSessions` eviction block, then persists the new record. -/
def CreateSession (cfg : SessionConfig) (now : Time)
    (sessionID refreshToken userID : String) (ci : ClientInfo)
    (store : Store) : Except String Session × Store :=
  let session := newSession cfg now sessionID refreshToken userID ci
  let store1 := enforceMaxSessions cfg userID store
  match GormSessionRepository.CreateSession now session store1 with
  | .error e => (.error ("failed to create session: " ++ e), store1)
  | .ok store2 => (.ok session, store2)

/-- Embedding of `DefaultSessionManager.GetSession`: read-only lookup; wraps the
repository's not-found error. -/
def GetSession (sessionID : String) (store : Store) :
    Except String Session :=
  match GetSessionByID sessionID store with
  | none => .error "failed to get session: record not found"
  | some s => .ok s

/-- Embedding of `DefaultSessionManager.ValidateSession`: inactive check first, then
lazy expiry discovery — `time.Now().After(ExpiresAt)` marks the session
inactive, persists it (error discarded) and fails `session expired`. -/
def ValidateSession (now : Time) (sessionID : String)
    (store : Store) : Except String Session × Store :=
  match GetSession sessionID store with
  | .error e => (.error e, store)
  | .ok s =>
    if !s.isActive then
      (.error "session is inactive", store)
    else if s.expiresAt < now then
      (.error "session expired",
        UpdateSession now { s with isActive := false } store)
    else
      (.ok s, store)

/-- Embedding of `DefaultSessionManager.InvalidateSession`: sets `IsActive = false`
and `ExpiresAt = time.Now()`, then persists. -/
def InvalidateSession (now : Time) (sessionID : String)
    (store : Store) : Except String Unit × Store :=
  match GetSession sessionID store with
  | .error e => (.error e, store)
  | .ok s =>
    (.ok (), UpdateSession now { s with isActive := false, expiresAt := now } store)

/-- Embedding of `DefaultSessionManager.RefreshSession`: fails when inactive, fails
when `time.Now().After(RefreshExpiresAt)` (independent of `ExpiresAt`);
otherwise extends both expiries from `now`, rotates the refresh token
and persists; returns the updated record. -/
def RefreshSession (cfg : SessionConfig) (now : Time) (newToken : String)
    (sessionID : String) (store : Store) : Except String Session × Store :=
  match GetSession sessionID store with
  | .error e => (.error e, store)
  | .ok s =>
    if !s.isActive then
      (.error "session is inactive", store)
    else if s.refreshExpiresAt < now then
      (.error "refresh token expired", store)
    else
      let s' := { s with
        expiresAt := now + cfg.sessionTTL
        refreshExpiresAt := now + cfg.refreshTTL
        refreshToken := newToken
        updatedAt := now }
      (.ok s', UpdateSession now s' store)

/-- Embedding of `DefaultSessionManager.CleanupExpiredSessions`: delegates to the
repository sweep. -/
def CleanupExpiredSessions (now : Time) (store : Store) :
    Except String Unit × Store :=
  (.ok (), DeleteExpiredSessions now store)

end DefaultSessionManager

/-! ## Nonce registry (`InMemoryNonceValidator`) -/

/-- The nonce map `map[string]time.Time`, as an association list with at
most one binding per key. -/
abbrev NonceState := List (String × Time)

namespace InMemoryNonceValidator

/-- Map lookup `expiry, exists := v.nonces[nonce]`. -/
def lookup (value : String) (st : NonceState) : Option Time :=
  (st.find? (fun p => p.fst = value)).map Prod.snd

/-- Map removal `delete(v.nonces, nonce)`. -/
def erase (value : String) (st : NonceState) : NonceState :=
  st.filter (fun p => !(p.fst = value : Bool))

/-- Embedding of `InMemoryNonceValidator.Generate`: records
`nonces[value] = now + ttl` and returns the value (the 32 random bytes
are the `value` argument). -/
def Generate (ttl : Time) (now : Time) (value : String) (st : NonceState) :
    String × NonceState :=
  (value, (value, now + ttl) :: erase value st)

/-- Embedding of `InMemoryNonceValidator.Validate`: under the single mutex — unknown
value fails `invalid nonce`; otherwise the entry is removed first, and
an elapsed TTL (`time.Now().After(expiry)`) fails `nonce expired`. -/
def Validate (now : Time) (value : String) (st : NonceState) :
    Except String Unit × NonceState :=
  match lookup value st with
  | none => (.error "invalid nonce", st)
  | some expiry =>
    let st' := erase value st
    if expiry < now then (.error "nonce expired", st')
    else (.ok (), st')

/-- Embedding of `InMemoryNonceValidator.Cleanup`: removes every entry whose expiry
has passed. -/
def Cleanup (now : Time) (st : NonceState) : NonceState :=
  st.filter (fun p => !(decide (p.snd < now)))

end InMemoryNonceValidator

/-! ## Error taxonomy (§7 of the spec) -/

/-- The five error kinds of the spec's taxonomy. -/
inductive ErrKind where
  | notFound
  | inactive
  | expired
  | invalid
  | persistence
deriving Repr, DecidableEq

/-- Classification of the error strings the core produces into the
taxonomy: each failure site's message determines its kind. -/
def errKind (msg : String) : Option ErrKind :=
  if msg = "failed to get session: record not found" then some .notFound
  else if msg = "session is inactive" then some .inactive
  else if msg = "session expired" then some .expired
  else if msg = "refresh token expired" then some .expired
  else if msg = "nonce expired" then some .expired
  else if msg = "invalid nonce" then some .invalid
  else if msg = "failed to create session: duplicate key" then some .persistence
  else none

/-! ## Auxiliary predicates and concrete fixtures -/

/-- Primary-key property of the session table: pairwise distinct ids. -/
def uniqueIds (store : Store) : Prop :=
  store.Pairwise (fun a b => a.id ≠ b.id)

/-- The data-model invariant `access-expiry ≤ refresh-expiry`. -/
def expiryOrdered (s : Session) : Prop :=
  s.expiresAt ≤ s.refreshExpiresAt

instance (s : Session) : Decidable (expiryOrdered s) :=
  inferInstanceAs (Decidable (s.expiresAt ≤ s.refreshExpiresAt))

/-- No session of `pre` that was inactive is active (under the same id)
in `post`: operations never turn `active` back on for an existing id. -/
def noReactivation (pre post : Store) : Prop :=
  ∀ s' ∈ post, s'.isActive = true → ∀ s ∈ pre, s.id = s'.id →
    s.isActive = true

namespace Fixtures

def ci0 : ClientInfo :=
  { ipAddress := "127.0.0.1", userAgent := "test", deviceID := "dev" }

/-- TTLs 10/20 ns, per-user cap disabled. -/
def cfg0 : SessionConfig :=
  { sessionTTL := 10, refreshTTL := 20, maxSessions := 0, secureCookies := false }

/-- TTLs 10/20 ns, at most one session per user. -/
def cfg1 : SessionConfig :=
  { sessionTTL := 10, refreshTTL := 20, maxSessions := 1, secureCookies := false }

/-- An active, unexpired session of user `u`. -/
def sOld : Session :=
  { id := "old", userID := "u", refreshToken := "tokOld", ipAddress := "ip"
    userAgent := "ua", deviceID := "d", expiresAt := 100
    refreshExpiresAt := 200, isActive := true, createdAt := 0, updatedAt := 0 }

/-- An active session whose access expiry (50) is past at `now = 60`
while its refresh expiry (1000) is not. -/
def sExp : Session :=
  { id := "sexp", userID := "u", refreshToken := "tokE", ipAddress := "ip"
    userAgent := "ua", deviceID := "d", expiresAt := 50
    refreshExpiresAt := 1000, isActive := true, createdAt := 0, updatedAt := 0 }

/-- An explicitly invalidated (inactive) session. -/
def sInact : Session :=
  { id := "inact", userID := "u", refreshToken := "tokI", ipAddress := "ip"
    userAgent := "ua", deviceID := "d", expiresAt := 100
    refreshExpiresAt := 200, isActive := false, createdAt := 0, updatedAt := 0 }

/-- An active session that is access-expired at `now = 100` and was
updated at 100 (inactive for no time at all). -/
def sC2 : Session :=
  { id := "c2", userID := "u", refreshToken := "tokC2", ipAddress := "ip"
    userAgent := "ua", deviceID := "d", expiresAt := 50
    refreshExpiresAt := 60, isActive := true, createdAt := 0, updatedAt := 100 }

/-- An active session whose refresh expiry (50) is already past at
`now = 100`. -/
def sC6 : Session :=
  { id := "c6", userID := "u", refreshToken := "tokC6", ipAddress := "ip"
    userAgent := "ua", deviceID := "d", expiresAt := 40
    refreshExpiresAt := 50, isActive := true, createdAt := 0, updatedAt := 0 }

end Fixtures

/-! ## Helper lemmas: nonce map -/

namespace InMemoryNonceValidator

theorem lookup_erase (value : String) (st : NonceState) :
    lookup value (erase value st) = none := by
  induction st with
  | nil => rfl
  | cons p t ih =>
    by_cases h : p.fst = value
    · simp only [erase, List.filter_cons, h] at ih ⊢
      simp only [decide_true_eq_true]
      exact ih
    · simp only [erase, List.filter_cons, h] at ih ⊢
      simp only [lookup, List.find?, h] at ih ⊢
      simp only [decide_false_eq_false, Bool.not_false, if_true]
      exact ih

theorem lookup_cons_self (value : String) (e : Time) (st : NonceState) :
    lookup value ((value, e) :: st) = some e := by
  simp [lookup, List.find?]

/-- Reduction of `Validate` on an unknown value. -/
theorem Validate_none (now : Time) (value : String) (st : NonceState)
    (h : lookup value st = none) :
    Validate now value st = (.error "invalid nonce", st) := by
  unfold Validate
  rw [h]

/-- Reduction of `Validate` on a recorded value. -/
theorem Validate_some (now : Time) (value : String) (st : NonceState)
    (e : Time) (h : lookup value st = some e) :
    Validate now value st =
      if e < now then (.error "nonce expired", erase value st)
      else (.ok (), erase value st) := by
  unfold Validate
  rw [h]

/-- A successful `Validate` leaves a state in which the value is gone. -/
theorem validate_ok_erases (t1 : Time) (value : String) (st0 : NonceState)
    (h : (Validate t1 value st0).1 = .ok ()) :
    (Validate t1 value st0).2 = erase value st0 := by
  cases hl : lookup value st0 with
  | none => rw [Validate_none t1 value st0 hl] at h; exact absurd h (by simp)
  | some e =>
    rw [Validate_some t1 value st0 e hl] at h ⊢
    by_cases he : e < t1
    · rw [if_pos he] at h; exact absurd h (by simp)
    · rw [if_neg he]

end InMemoryNonceValidator

/-! ## Helper lemmas: session store -/

namespace GormSessionRepository

theorem GetSessionByID_id {sessionID : String} {store : Store} {s : Session}
    (h : GetSessionByID sessionID store = some s) : s.id = sessionID := by
  have := List.find?_some h
  exact of_decide_eq_true this

theorem GetSessionByID_mem {sessionID : String} {store : Store} {s : Session}
    (h : GetSessionByID sessionID store = some s) : s ∈ store :=
  List.mem_of_find?_eq_some h

theorem any_id_of_found {sessionID : String} {store : Store} {s : Session}
    (h : GetSessionByID sessionID store = some s) :
    store.any (fun t => t.id = s.id) = true := by
  refine List.any_eq_true.mpr ⟨s, GetSessionByID_mem h, ?_⟩
  simp

/-- Every record of `UpdateSession now c store` is either an untouched
record of `store` or the freshly stamped `c`. -/
theorem mem_UpdateSession {t : Session} (now : Time) (c : Session)
    (store : Store) (h : t ∈ UpdateSession now c store) :
    t ∈ store ∨ t = { c with updatedAt := now } := by
  unfold UpdateSession at h
  by_cases hany : store.any (fun u => u.id = c.id) = true
  · rw [if_pos hany] at h
    obtain ⟨x, hx, hfx⟩ := List.mem_map.mp h
    by_cases hid : x.id = c.id
    · rw [if_pos hid] at hfx
      exact Or.inr hfx.symm
    · rw [if_neg hid] at hfx
      exact Or.inl (hfx ▸ hx)
  · rw [if_neg hany] at h
    rcases List.mem_append.mp h with h1 | h1
    · exact Or.inl h1
    · exact Or.inr (List.mem_singleton.mp h1)

theorem mem_DeleteSession {t : Session} {sessionID : String} {store : Store}
    (h : t ∈ DeleteSession sessionID store) : t ∈ store :=
  List.mem_of_mem_filter h

theorem mem_DeleteSession_ne {t : Session} {sessionID : String} {store : Store}
    (h : t ∈ DeleteSession sessionID store) : t.id ≠ sessionID := by
  have := List.of_mem_filter h
  simpa using this

theorem mem_DeleteSession_of {t : Session} {sessionID : String} {store : Store}
    (ht : t ∈ store) (hne : t.id ≠ sessionID) :
    t ∈ DeleteSession sessionID store := by
  refine List.mem_filter.mpr ⟨ht, ?_⟩
  simpa using hne

/-- Replacing every record whose id is `idv` by `c'` (with `c'.id = idv`)
makes the lookup of `idv` yield `c'`, as long as such a record exists. -/
theorem find?_update_list (idv : String) (c' : Session) (hc' : c'.id = idv) :
    ∀ l : List Session, (∃ x ∈ l, x.id = idv) →
      (l.map (fun t => if t.id = idv then c' else t)).find?
        (fun t => t.id = idv) = some c' := by
  intro l
  induction l with
  | nil => rintro ⟨x, hx, -⟩; exact absurd hx (List.not_mem_nil x)
  | cons h0 t ih =>
    intro hex
    by_cases hid : h0.id = idv
    · simp only [List.map_cons, if_pos hid]
      exact List.find?_cons_of_pos _ (by simpa using hc')
    · simp only [List.map_cons, if_neg hid]
      rw [List.find?_cons_of_neg _ (by simpa using hid)]
      refine ih ?_
      rcases hex with ⟨x, hx, hxid⟩
      rcases List.mem_cons.mp hx with rfl | hx'
      · exact absurd hxid hid
      · exact ⟨x, hx', hxid⟩

/-- After `UpdateSession now c store`, looking up `c.id` yields the
stamped `c`, provided some record with that id was present. -/
theorem GetSessionByID_UpdateSession {c : Session} {store : Store}
    {s : Session} (now : Time)
    (hfind : GetSessionByID c.id store = some s) :
    GetSessionByID c.id (UpdateSession now c store) =
      some { c with updatedAt := now } := by
  have hany : store.any (fun u => u.id = c.id) = true := by
    refine List.any_eq_true.mpr ⟨s, GetSessionByID_mem hfind, ?_⟩
    simpa using GetSessionByID_id hfind
  unfold UpdateSession
  rw [if_pos hany]
  exact find?_update_list c.id { c with updatedAt := now } rfl store
    ⟨s, GetSessionByID_mem hfind, GetSessionByID_id hfind⟩
end GormSessionRepository

namespace DefaultSessionManager

open GormSessionRepository

theorem GetSession_none {sessionID : String} {store : Store}
    (h : GetSessionByID sessionID store = none) :
    GetSession sessionID store = .error "failed to get session: record not found" := by
  unfold GetSession
  rw [h]

theorem GetSession_some {sessionID : String} {store : Store} {s : Session}
    (h : GetSessionByID sessionID store = some s) :
    GetSession sessionID store = .ok s := by
  unfold GetSession
  rw [h]

theorem ValidateSession_notFound {now : Time} {sessionID : String}
    {store : Store} (h : GetSessionByID sessionID store = none) :
    ValidateSession now sessionID store
      = (.error "failed to get session: record not found", store) := by
  unfold ValidateSession
  rw [GetSession_none h]

theorem ValidateSession_inactive {now : Time} {sessionID : String}
    {store : Store} {s : Session}
    (h : GetSessionByID sessionID store = some s) (ha : s.isActive = false) :
    ValidateSession now sessionID store = (.error "session is inactive", store) := by
  unfold ValidateSession
  rw [GetSession_some h]
  simp [ha]

theorem ValidateSession_expired {now : Time} {sessionID : String}
    {store : Store} {s : Session}
    (h : GetSessionByID sessionID store = some s) (ha : s.isActive = true)
    (he : s.expiresAt < now) :
    ValidateSession now sessionID store
      = (.error "session expired",
         UpdateSession now { s with isActive := false } store) := by
  unfold ValidateSession
  rw [GetSession_some h]
  simp [ha, he]

theorem ValidateSession_ok {now : Time} {sessionID : String}
    {store : Store} {s : Session}
    (h : GetSessionByID sessionID store = some s) (ha : s.isActive = true)
    (he : ¬ s.expiresAt < now) :
    ValidateSession now sessionID store = (.ok s, store) := by
  unfold ValidateSession
  rw [GetSession_some h]
  simp [ha, he]

theorem InvalidateSession_notFound {now : Time} {sessionID : String}
    {store : Store} (h : GetSessionByID sessionID store = none) :
    InvalidateSession now sessionID store
      = (.error "failed to get session: record not found", store) := by
  unfold InvalidateSession
  rw [GetSession_none h]

theorem InvalidateSession_found {now : Time} {sessionID : String}
    {store : Store} {s : Session}
    (h : GetSessionByID sessionID store = some s) :
    InvalidateSession now sessionID store
      = (.ok (), UpdateSession now { s with isActive := false, expiresAt := now } store) := by
  unfold InvalidateSession
  rw [GetSession_some h]

theorem RefreshSession_notFound {cfg : SessionConfig} {now : Time}
    {newToken sessionID : String} {store : Store}
    (h : GetSessionByID sessionID store = none) :
    RefreshSession cfg now newToken sessionID store
      = (.error "failed to get session: record not found", store) := by
  unfold RefreshSession
  rw [GetSession_none h]

theorem RefreshSession_inactive {cfg : SessionConfig} {now : Time}
    {newToken sessionID : String} {store : Store} {s : Session}
    (h : GetSessionByID sessionID store = some s) (ha : s.isActive = false) :
    RefreshSession cfg now newToken sessionID store
      = (.error "session is inactive", store) := by
  unfold RefreshSession
  rw [GetSession_some h]
  simp [ha]

theorem RefreshSession_expired {cfg : SessionConfig} {now : Time}
    {newToken sessionID : String} {store : Store} {s : Session}
    (h : GetSessionByID sessionID store = some s) (ha : s.isActive = true)
    (he : s.refreshExpiresAt < now) :
    RefreshSession cfg now newToken sessionID store
      = (.error "refresh token expired", store) := by
  unfold RefreshSession
  rw [GetSession_some h]
  simp [ha, he]

theorem RefreshSession_ok {cfg : SessionConfig} {now : Time}
    {newToken sessionID : String} {store : Store} {s : Session}
    (h : GetSessionByID sessionID store = some s) (ha : s.isActive = true)
    (he : ¬ s.refreshExpiresAt < now) :
    RefreshSession cfg now newToken sessionID store
      = (.ok { s with
               expiresAt := now + cfg.sessionTTL
               refreshExpiresAt := now + cfg.refreshTTL
               refreshToken := newToken
               updatedAt := now },
         UpdateSession now
           { s with
             expiresAt := now + cfg.sessionTTL
             refreshExpiresAt := now + cfg.refreshTTL
             refreshToken := newToken
             updatedAt := now } store) := by
  unfold RefreshSession
  rw [GetSession_some h]
  simp [ha, he]

/-- The fold of `olderOf` lands on its seed or on a list element. -/
theorem foldl_olderOf_mem_or (l : List Session) (a : Session) :
    l.foldl olderOf a = a ∨ l.foldl olderOf a ∈ l := by
  induction l generalizing a with
  | nil => exact Or.inl rfl
  | cons s t ih =>
    rw [List.foldl_cons]
    by_cases hlt : s.createdAt < a.createdAt
    · have hos : olderOf a s = s := if_pos hlt
      rw [hos]
      rcases ih s with h | h
      · refine Or.inr ?_
        rw [h]
        exact List.mem_cons_self s t
      · exact Or.inr (List.mem_cons_of_mem s h)
    · have hos : olderOf a s = a := if_neg hlt
      rw [hos]
      rcases ih a with h | h
      · exact Or.inl h
      · exact Or.inr (List.mem_cons_of_mem s h)

/-- The fold of `olderOf` is no later-created than its seed and than
every list element. -/
theorem foldl_olderOf_le (l : List Session) (a : Session) :
    (l.foldl olderOf a).createdAt ≤ a.createdAt ∧
    ∀ s ∈ l, (l.foldl olderOf a).createdAt ≤ s.createdAt := by
  induction l generalizing a with
  | nil => exact ⟨le_refl _, by intro s hs; exact absurd hs (List.not_mem_nil s)⟩
  | cons s t ih =>
    rcases ih (olderOf a s) with ⟨h1, h2⟩
    have hsa : (olderOf a s).createdAt ≤ a.createdAt ∧
        (olderOf a s).createdAt ≤ s.createdAt := by
      unfold olderOf
      by_cases hlt : s.createdAt < a.createdAt
      · rw [if_pos hlt]; exact ⟨le_of_lt hlt, le_refl _⟩
      · rw [if_neg hlt]; exact ⟨le_refl _, not_lt.mp hlt⟩
    refine ⟨by rw [List.foldl_cons]; exact le_trans h1 hsa.1, ?_⟩
    intro x hx
    rcases List.mem_cons.mp hx with rfl | hx'
    · rw [List.foldl_cons]; exact le_trans h1 hsa.2
    · rw [List.foldl_cons]; exact h2 x hx'

/-- A produced eviction target belongs to the scanned list. -/
theorem evictTarget_mem {l : List Session} {o : Session}
    (h : evictTarget l = some o) : o ∈ l := by
  cases l with
  | nil => exact absurd h (by simp [evictTarget])
  | cons h0 t =>
    have : (h0 :: t).foldl olderOf h0 = o := by
      have := h
      unfold evictTarget at this
      exact Option.some.inj this
    rcases foldl_olderOf_mem_or (h0 :: t) h0 with h1 | h1
    · rw [this] at h1
      rw [h1]
      exact List.mem_cons_self h0 t
    · rw [this] at h1; exact h1

/-- A produced eviction target is earliest-created in the scanned list. -/
theorem evictTarget_min {l : List Session} {o : Session}
    (h : evictTarget l = some o) : ∀ s ∈ l, o.createdAt ≤ s.createdAt := by
  cases l with
  | nil => exact absurd h (by simp [evictTarget])
  | cons h0 t =>
    have heq : (h0 :: t).foldl olderOf h0 = o := by
      have := h
      unfold evictTarget at this
      exact Option.some.inj this
    intro s hs
    have := (foldl_olderOf_le (h0 :: t) h0).2 s hs
    rwa [heq] at this

/-- A nonempty list yields an eviction target. -/
theorem evictTarget_isSome {l : List Session} (h : l ≠ []) :
    ∃ o, evictTarget l = some o := by
  cases l with
  | nil => exact absurd rfl h
  | cons h0 t => exact ⟨(h0 :: t).foldl olderOf h0, rfl⟩

/-- Decoding membership in the active-session query. -/
theorem mem_GetSessionsByUserID {uid : String} {store : Store} {s : Session}
    (h : s ∈ GormSessionRepository.GetSessionsByUserID uid store) :
    s ∈ store ∧ s.userID = uid ∧ s.isActive = true := by
  have h1 := List.mem_of_mem_filter h
  have h2 := List.of_mem_filter h
  simp only [Bool.and_eq_true, decide_eq_true_eq] at h2
  exact ⟨h1, h2.1, h2.2⟩

/-- Records surviving the eviction block were already in the store. -/
theorem enforceMaxSessions_subset {cfg : SessionConfig} {uid : String}
    {store : Store} {t : Session}
    (h : t ∈ enforceMaxSessions cfg uid store) : t ∈ store := by
  unfold enforceMaxSessions at h
  by_cases h1 : 0 < cfg.maxSessions
  · rw [if_pos h1] at h
    by_cases h2 : cfg.maxSessions ≤
        ((GormSessionRepository.GetSessionsByUserID uid store).length : Int)
    · rw [if_pos h2] at h
      cases he : evictTarget (GormSessionRepository.GetSessionsByUserID uid store) with
      | none => rw [he] at h; exact h
      | some o => rw [he] at h; exact GormSessionRepository.mem_DeleteSession h
    · rw [if_neg h2] at h; exact h
  · rw [if_neg h1] at h; exact h

theorem eq_of_uniqueIds_mem {store : Store} (h : uniqueIds store)
    {s t : Session} (hs : s ∈ store) (ht : t ∈ store) (hid : s.id = t.id) :
    s = t := by
  induction store with
  | nil => exact absurd hs (List.not_mem_nil s)
  | cons h0 rest ih =>
    have hpair := List.pairwise_cons.mp h
    rcases List.mem_cons.mp hs with rfl | hs'
    · rcases List.mem_cons.mp ht with rfl | ht'
      · rfl
      · exact absurd hid (hpair.1 t ht')
    · rcases List.mem_cons.mp ht with rfl | ht'
      · exact absurd hid.symm (hpair.1 s hs')
      · exact ih hpair.2 hs' ht'

/-- A record of the store missing after the eviction block was an active
session of the queried user (only the eviction delete removes rows). -/
theorem enforceMaxSessions_removed_active {cfg : SessionConfig}
    {uid : String} {store : Store} (huniq : uniqueIds store) {s : Session}
    (hs : s ∈ store) (hnot : s ∉ enforceMaxSessions cfg uid store) :
    s.isActive = true := by
  unfold enforceMaxSessions at hnot
  by_cases h1 : 0 < cfg.maxSessions
  · rw [if_pos h1] at hnot
    by_cases h2 : cfg.maxSessions ≤
        ((GormSessionRepository.GetSessionsByUserID uid store).length : Int)
    · rw [if_pos h2] at hnot
      cases he : evictTarget (GormSessionRepository.GetSessionsByUserID uid store) with
      | none => rw [he] at hnot; exact absurd hs hnot
      | some o =>
        rw [he] at hnot
        by_cases hid : s.id = o.id
        · have ho := mem_GetSessionsByUserID (evictTarget_mem he)
          have : s = o := eq_of_uniqueIds_mem huniq hs ho.1 hid
          rw [this]
          exact ho.2.2
        · exact absurd (GormSessionRepository.mem_DeleteSession_of hs hid) hnot
    · rw [if_neg h2] at hnot; exact absurd hs hnot
  · rw [if_neg h1] at hnot; exact absurd hs hnot

/-- Behaviour of `CreateSession` when the new id collides with a surviving record:
the primary key rejects the insert and the store stays as the eviction
block left it. -/
theorem CreateSession_dup {cfg : SessionConfig} {now : Time}
    {sessionID refreshToken userID : String} {ci : ClientInfo} {store : Store}
    (h : (enforceMaxSessions cfg userID store).any
        (fun t => t.id = sessionID) = true) :
    CreateSession cfg now sessionID refreshToken userID ci store
      = (.error "failed to create session: duplicate key",
         enforceMaxSessions cfg userID store) := by
  unfold CreateSession GormSessionRepository.CreateSession
  simp only [newSession]
  rw [if_pos h]
  rfl

/-- Behaviour of `CreateSession` with a fresh id: the record is appended after the
eviction block. -/
theorem CreateSession_fresh {cfg : SessionConfig} {now : Time}
    {sessionID refreshToken userID : String} {ci : ClientInfo} {store : Store}
    (h : (enforceMaxSessions cfg userID store).any
        (fun t => t.id = sessionID) = false) :
    CreateSession cfg now sessionID refreshToken userID ci store
      = (.ok (newSession cfg now sessionID refreshToken userID ci),
         enforceMaxSessions cfg userID store
           ++ [newSession cfg now sessionID refreshToken userID ci]) := by
  unfold CreateSession GormSessionRepository.CreateSession
  simp only [newSession]
  rw [if_neg (by simp [h])]

end DefaultSessionManager


namespace Claims

open InMemoryNonceValidator

/-- C3: a value recorded by `Generate` validates successfully while its
TTL has not elapsed; the consuming `Validate` removes it, so every
subsequent `Validate` of the same value returns `invalid nonce`; and in
any state, the two serializations of a pair of `Validate` calls on one
value yield at most one success (the whole check-and-remove runs under
the registry's single mutex, so a race is one of the serializations). -/
theorem C3_generate_validate_once (ttl now now1 : Time) (value : String)
    (st : NonceState) (h1 : now1 ≤ now + ttl) :
    (Validate now1 value (Generate ttl now value st).2).1 = .ok () ∧
    (∀ now2 : Time,
      (Validate now2 value
        (Validate now1 value (Generate ttl now value st).2).2).1
        = .error "invalid nonce") ∧
    (∀ (st0 : NonceState) (t1 t2 : Time),
      (Validate t1 value st0).1 = .ok () →
      (Validate t2 value (Validate t1 value st0).2).1
        = .error "invalid nonce") := by
  have hgen : (Generate ttl now value st).2 = (value, now + ttl) :: erase value st := rfl
  have hlook : lookup value ((value, now + ttl) :: erase value st) = some (now + ttl) :=
    lookup_cons_self value (now + ttl) (erase value st)
  have hok : (Validate now1 value (Generate ttl now value st).2)
      = (.ok (), erase value ((value, now + ttl) :: erase value st)) := by
    rw [hgen, Validate_some now1 value _ (now + ttl) hlook, if_neg (not_lt.mpr h1)]
  have hatmost : ∀ (st0 : NonceState) (t1 t2 : Time),
      (Validate t1 value st0).1 = .ok () →
      (Validate t2 value (Validate t1 value st0).2).1
        = .error "invalid nonce" := by
    intro st0 t1 t2 hsucc
    rw [validate_ok_erases t1 value st0 hsucc,
      Validate_none t2 value _ (lookup_erase value st0)]
  refine ⟨by rw [hok], ?_, hatmost⟩
  intro now2
  rw [hok]
  rw [Validate_none now2 value _ (lookup_erase value _)]

/-- C3 witness: concrete round-trip at `ttl = 5` minutes (ns), `now = 0`. -/
theorem C3_witness :
    ((0 : Int) ≤ 0 + 300000000000) ∧
    ((Validate 0 "n" (Generate 300000000000 0 "n" []).2).1 = .ok () ∧
    (∀ now2 : Time,
      (Validate now2 "n"
        (Validate 0 "n" (Generate 300000000000 0 "n" []).2).2).1
        = .error "invalid nonce") ∧
    (∀ (st0 : NonceState) (t1 t2 : Time),
      (Validate t1 "n" st0).1 = .ok () →
      (Validate t2 "n" (Validate t1 "n" st0).2).1
        = .error "invalid nonce")) :=
  ⟨by decide, C3_generate_validate_once 300000000000 0 0 "n" [] (by decide)⟩

/-- C7: when the value is present but its TTL has elapsed, `Validate`
returns `nonce expired` and still removes the entry, so the value is
absent afterwards and any retry returns `invalid nonce`. -/
theorem C7_expired_consumed (now : Time) (value : String) (st : NonceState)
    (e : Time) (hfound : lookup value st = some e) (hexp : e < now) :
    Validate now value st = (.error "nonce expired", erase value st) ∧
    lookup value (erase value st) = none ∧
    (∀ t2 : Time, (Validate t2 value (erase value st)).1
        = .error "invalid nonce") := by
  refine ⟨?_, lookup_erase value st, ?_⟩
  · rw [Validate_some now value st e hfound, if_pos hexp]
  · intro t2
    rw [Validate_none t2 value _ (lookup_erase value st)]

/-- C7 witness: a nonce issued with expiry 5, validated at time 10. -/
theorem C7_witness :
    (lookup "n" [("n", (5 : Int))] = some 5 ∧ (5 : Int) < 10) ∧
    (Validate 10 "n" [("n", (5 : Int))]
        = (.error "nonce expired", erase "n" [("n", (5 : Int))]) ∧
    lookup "n" (erase "n" [("n", (5 : Int))]) = none ∧
    (∀ t2 : Time, (Validate t2 "n" (erase "n" [("n", (5 : Int))])).1
        = .error "invalid nonce")) :=
  ⟨⟨by decide, by decide⟩, C7_expired_consumed 10 "n" [("n", 5)] 5 (by decide) (by decide)⟩

open GormSessionRepository DefaultSessionManager Fixtures

/-- C4: for an existing session, `ValidateSession` fails
`session is inactive` whenever `active = false` (regardless of expiry,
so an invalidated session reports inactive, not expired), and on an
active session whose access expiry is past it fails `session expired`
and persists the inactive transition, so a subsequent `GetSession`
returns the record with `active = false`. -/
theorem C4_validate_inactive_precedence_and_lazy_expiry
    (now : Time) (sessionID : String) (store : Store) (s : Session)
    (hfind : GetSessionByID sessionID store = some s) :
    (s.isActive = false →
      ValidateSession now sessionID store
        = (.error "session is inactive", store)) ∧
    (s.isActive = true → s.expiresAt < now →
      (ValidateSession now sessionID store).1 = .error "session expired" ∧
      GetSession sessionID (ValidateSession now sessionID store).2
        = .ok { s with isActive := false, updatedAt := now } ∧
      ({ s with isActive := false, updatedAt := now } : Session).isActive
        = false) := by
  constructor
  · intro ha
    exact ValidateSession_inactive hfind ha
  · intro ha he
    have hid := GetSessionByID_id hfind
    rw [ValidateSession_expired hfind ha he]
    refine ⟨rfl, ?_, rfl⟩
    have hc : GetSessionByID ({ s with isActive := false } : Session).id store
        = some s := by
      show GetSessionByID s.id store = some s
      rw [hid]
      exact hfind
    apply GetSession_some
    rw [← hid]
    exact GetSessionByID_UpdateSession now hc

/-- C4 witness: `sExp` is active with access expiry 50; at `now = 60`
validation reports `session expired` and the persisted record reads
back inactive. -/
theorem C4_witness :
    (ValidateSession 60 "sexp" [sExp]).1 = .error "session expired" ∧
    GetSession "sexp" (ValidateSession 60 "sexp" [sExp]).2
      = .ok { sExp with isActive := false, updatedAt := 60 } :=
  ⟨((C4_validate_inactive_precedence_and_lazy_expiry 60 "sexp" [sExp] sExp
      rfl).2 rfl (by decide)).1,
   ((C4_validate_inactive_precedence_and_lazy_expiry 60 "sexp" [sExp] sExp
      rfl).2 rfl (by decide)).2.1⟩

/-- C5: for an existing session, `RefreshSession` fails exactly on an
inactive session or a past refresh expiry — the check never consults
the access expiry — and on success returns the same id, the supplied
fresh refresh secret (different from the old one), and both expiries
recomputed from the refresh time and the configured TTLs. -/
theorem C5_refresh_rotation (cfg : SessionConfig) (now : Time)
    (newToken sessionID : String) (store : Store) (s : Session)
    (hfind : GetSessionByID sessionID store = some s) :
    (s.isActive = false →
      RefreshSession cfg now newToken sessionID store
        = (.error "session is inactive", store)) ∧
    (s.isActive = true → s.refreshExpiresAt < now →
      RefreshSession cfg now newToken sessionID store
        = (.error "refresh token expired", store)) ∧
    (s.isActive = true → ¬ s.refreshExpiresAt < now →
      newToken ≠ s.refreshToken →
      ∃ s', (RefreshSession cfg now newToken sessionID store).1 = .ok s' ∧
        s'.id = s.id ∧
        s'.refreshToken = newToken ∧
        s'.refreshToken ≠ s.refreshToken ∧
        s'.expiresAt = now + cfg.sessionTTL ∧
        s'.refreshExpiresAt = now + cfg.refreshTTL) := by
  refine ⟨fun ha => RefreshSession_inactive hfind ha,
          fun ha he => RefreshSession_expired hfind ha he,
          fun ha he hne => ?_⟩
  rw [RefreshSession_ok hfind ha he]
  exact ⟨_, rfl, rfl, rfl, hne, rfl, rfl⟩

/-- C5 witness: `sExp` is access-expired at `now = 60` (expiry 50) yet
refreshes successfully, rotating the secret and both expiries. -/
theorem C5_witness :
    ∃ s', (RefreshSession cfg0 60 "tokNew" "sexp" [sExp]).1 = .ok s' ∧
      s'.id = sExp.id ∧
      s'.refreshToken = "tokNew" ∧
      s'.refreshToken ≠ sExp.refreshToken ∧
      s'.expiresAt = 60 + cfg0.sessionTTL ∧
      s'.refreshExpiresAt = 60 + cfg0.refreshTTL :=
  (C5_refresh_rotation cfg0 60 "tokNew" "sexp" [sExp] sExp rfl).2.2
    rfl (by decide) (by decide)

/-- C10: with `MaxSessions ≤ 0` the eviction block is skipped entirely;
creation (with a fresh id, as the uuid supply guarantees) succeeds and
the store is exactly the old store with the new active record appended —
no existing session is removed or deactivated. -/
theorem C10_cap_disabled (cfg : SessionConfig) (now : Time)
    (sessionID refreshToken userID : String) (ci : ClientInfo)
    (store : Store) (hmax : cfg.maxSessions ≤ 0)
    (hfresh : ∀ t ∈ store, ¬ t.id = sessionID) :
    CreateSession cfg now sessionID refreshToken userID ci store
      = (.ok (newSession cfg now sessionID refreshToken userID ci),
         store ++ [newSession cfg now sessionID refreshToken userID ci]) := by
  have hskip : enforceMaxSessions cfg userID store = store := by
    unfold enforceMaxSessions
    rw [if_neg (not_lt.mpr hmax)]
  have hany : store.any (fun t => t.id = sessionID) = false := by
    rw [List.any_eq_false]
    intro t ht
    simpa using hfresh t ht
  have h := @CreateSession_fresh cfg now sessionID refreshToken userID ci
    store (by rw [hskip]; exact hany)
  rw [h, hskip]

/-- C10 witness: cap disabled (`maxSessions = 0`), one existing session
`sOld`; creation appends and touches nothing. -/
theorem C10_witness :
    CreateSession cfg0 5 "new" "tokNew" "u" ci0 [sOld]
      = (.ok (newSession cfg0 5 "new" "tokNew" "u" ci0),
         [sOld] ++ [newSession cfg0 5 "new" "tokNew" "u" ci0]) :=
  C10_cap_disabled cfg0 5 "new" "tokNew" "u" ci0 [sOld]
    (by decide) (by decide)

/-- C1 counterexample: user `u` holds `MaxSessions = 1` active session
(`sOld`); after `CreateSession` the old session is entirely absent from
the store — it was physically deleted during normal request flow, not
marked inactive and persisted as the claim states. -/
theorem C1_counterexample :
    sOld.isActive = true ∧ cfg1.maxSessions = 1 ∧
    GetSessionByID "old"
      (CreateSession cfg1 5 "new" "tokNew" "u" ci0 [sOld]).2 = none := by
  refine ⟨rfl, rfl, ?_⟩
  decide

/-- C1 amended: when the subject already holds at least `MaxSessions`
active sessions, `CreateSession` picks the earliest-created of them and
physically deletes it from the store (via the repository's hard
`DeleteSession`) before appending the new record; every other record
survives. Eviction therefore does delete sessions in normal request
flow. -/
theorem C1_amended_eviction_deletes (cfg : SessionConfig) (now : Time)
    (sessionID refreshToken userID : String) (ci : ClientInfo)
    (store : Store) (hmax : 0 < cfg.maxSessions)
    (hcount : cfg.maxSessions
      ≤ ((GetSessionsByUserID userID store).length : Int))
    (hfresh : ∀ t ∈ store, ¬ t.id = sessionID) :
    ∃ o, evictTarget (GetSessionsByUserID userID store) = some o ∧
      o ∈ store ∧ o.isActive = true ∧ o.userID = userID ∧
      (∀ s ∈ GetSessionsByUserID userID store, o.createdAt ≤ s.createdAt) ∧
      (CreateSession cfg now sessionID refreshToken userID ci store).1
        = .ok (newSession cfg now sessionID refreshToken userID ci) ∧
      (∀ t ∈ (CreateSession cfg now sessionID refreshToken userID ci store).2,
        ¬ t.id = o.id) ∧
      (∀ t ∈ store, ¬ t.id = o.id →
        t ∈ (CreateSession cfg now sessionID refreshToken userID ci store).2) ∧
      newSession cfg now sessionID refreshToken userID ci
        ∈ (CreateSession cfg now sessionID refreshToken userID ci store).2 := by
  have hne : GetSessionsByUserID userID store ≠ [] := by
    intro hnil
    rw [hnil] at hcount
    simp at hcount
    exact absurd (lt_of_lt_of_le hmax hcount) (lt_irrefl 0)
  obtain ⟨o, ho⟩ := evictTarget_isSome hne
  obtain ⟨homem, houser, hoact⟩ := mem_GetSessionsByUserID (evictTarget_mem ho)
  have henf : enforceMaxSessions cfg userID store = DeleteSession o.id store := by
    unfold enforceMaxSessions
    rw [if_pos hmax, if_pos hcount, ho]
  have hany : (enforceMaxSessions cfg userID store).any
      (fun t => t.id = sessionID) = false := by
    rw [henf, List.any_eq_false]
    intro t ht
    simpa using hfresh t (mem_DeleteSession ht)
  have hcr := @CreateSession_fresh cfg now sessionID refreshToken userID ci
    store hany
  refine ⟨o, ho, homem, hoact, houser, evictTarget_min ho, ?_, ?_, ?_, ?_⟩
  · rw [hcr]
  · intro t ht
    rw [hcr, henf] at ht
    rcases List.mem_append.mp ht with h1 | h1
    · exact mem_DeleteSession_ne h1
    · rw [List.mem_singleton.mp h1]
      show ¬ sessionID = o.id
      intro hcontra
      exact hfresh o homem (hcontra ▸ rfl)
  · intro t ht htne
    rw [hcr, henf]
    exact List.mem_append.mpr (Or.inl (mem_DeleteSession_of ht htne))
  · rw [hcr, henf]
    exact List.mem_append.mpr (Or.inr (List.mem_singleton.mpr rfl))

/-- C1 amended witness: the concrete eviction of `sOld` at the cap. -/
theorem C1_amended_witness :
    ∃ o, evictTarget (GetSessionsByUserID "u" [sOld]) = some o ∧
      o ∈ [sOld] ∧ o.isActive = true ∧ o.userID = "u" ∧
      (∀ s ∈ GetSessionsByUserID "u" [sOld], o.createdAt ≤ s.createdAt) ∧
      (CreateSession cfg1 5 "new" "tokNew" "u" ci0 [sOld]).1
        = .ok (newSession cfg1 5 "new" "tokNew" "u" ci0) ∧
      (∀ t ∈ (CreateSession cfg1 5 "new" "tokNew" "u" ci0 [sOld]).2,
        ¬ t.id = o.id) ∧
      (∀ t ∈ [sOld], ¬ t.id = o.id →
        t ∈ (CreateSession cfg1 5 "new" "tokNew" "u" ci0 [sOld]).2) ∧
      newSession cfg1 5 "new" "tokNew" "u" ci0
        ∈ (CreateSession cfg1 5 "new" "tokNew" "u" ci0 [sOld]).2 :=
  C1_amended_eviction_deletes cfg1 5 "new" "tokNew" "u" ci0 [sOld]
    (by decide) (by decide) (by decide)

/-- C2 counterexample: `sC2` is active (so it has been "inactive" for no
time at all) and access-expired at `now = 100`; the sweep deletes it
immediately — the grace period does not protect access-expired
sessions, contrary to the claim. -/
theorem C2_counterexample :
    sC2.isActive = true ∧ sC2.expiresAt < 100 ∧
    ¬ sC2.updatedAt < 100 - 24 * nsPerHour ∧
    (CleanupExpiredSessions 100 [sC2]).2 = [] := by
  refine ⟨rfl, by decide, by decide, ?_⟩
  decide

/-- C2 amended: the sweep deletes a session iff its access expiry has
passed OR it is inactive and was last updated more than 24 hours ago;
equivalently, a session survives iff it is unexpired and (active or
inside the 24-hour grace window). The grace period protects only
inactive-but-unexpired sessions, not access-expired ones. -/
theorem C2_amended_cleanup_predicate (now : Time) (store : Store)
    (s : Session) :
    s ∈ (CleanupExpiredSessions now store).2 ↔
      s ∈ store ∧
      ¬ (s.expiresAt < now ∨
         (s.isActive = false ∧ s.updatedAt < now - 24 * nsPerHour)) := by
  unfold CleanupExpiredSessions DeleteExpiredSessions expiredClause
  rw [List.mem_filter]
  constructor
  · rintro ⟨hmem, hpred⟩
    refine ⟨hmem, ?_⟩
    simp only [Bool.not_eq_true', Bool.or_eq_false_iff, Bool.and_eq_false_iff,
      decide_eq_false_iff_not, Bool.not_eq_false] at hpred
    rintro (hc | ⟨hinact, hupd⟩)
    · exact hpred.1 hc
    · rcases hpred.2 with h | h
      · rw [hinact] at h; simp at h
      · exact h hupd
  · rintro ⟨hmem, hpred⟩
    rw [not_or] at hpred
    refine ⟨hmem, ?_⟩
    simp only [Bool.not_eq_true', Bool.or_eq_false_iff, Bool.and_eq_false_iff,
      decide_eq_false_iff_not, Bool.not_eq_false]
    refine ⟨hpred.1, ?_⟩
    by_cases hact : s.isActive = false
    · exact Or.inr (fun hupd => hpred.2 ⟨hact, hupd⟩)
    · exact Or.inl (by simpa using hact)

end Claims

namespace Claims

open GormSessionRepository DefaultSessionManager Fixtures

/-- C6 counterexample: with `sessionTTL ≤ refreshTTL` and a store
satisfying the invariant, `InvalidateSession` at `now = 100` on `sC6`
(whose refresh expiry is 50) writes `expiresAt = 100 > 50`, breaking
`access-expiry ≤ refresh-expiry`. -/
theorem C6_counterexample :
    cfg1.sessionTTL ≤ cfg1.refreshTTL ∧
    (∀ s ∈ [sC6], expiryOrdered s) ∧
    ∃ s' ∈ (InvalidateSession 100 "c6" [sC6]).2, ¬ expiryOrdered s' := by
  refine ⟨by decide, by decide, ?_⟩
  decide

/-- C6 amended: under `sessionTTL ≤ refreshTTL`, the invariant
`access-expiry ≤ refresh-expiry` is preserved by `CreateSession`,
`ValidateSession`, `RefreshSession` and `CleanupExpiredSessions` for
every record of the store, and by `InvalidateSession` provided it runs
no later than the target session's refresh expiry (it writes
`expiresAt = now` and leaves the refresh expiry unchanged, which is
exactly the case the counterexample exploits). -/
theorem C6_amended_expiry_invariant (cfg : SessionConfig)
    (hcfg : cfg.sessionTTL ≤ cfg.refreshTTL) :
    (∀ (now : Time) (sid tok uid : String) (ci : ClientInfo) (store : Store),
      (∀ s ∈ store, expiryOrdered s) →
      ∀ s' ∈ (CreateSession cfg now sid tok uid ci store).2,
        expiryOrdered s') ∧
    (∀ (now : Time) (sid : String) (store : Store),
      (∀ s ∈ store, expiryOrdered s) →
      ∀ s' ∈ (ValidateSession now sid store).2, expiryOrdered s') ∧
    (∀ (now : Time) (tok sid : String) (store : Store),
      (∀ s ∈ store, expiryOrdered s) →
      ∀ s' ∈ (RefreshSession cfg now tok sid store).2, expiryOrdered s') ∧
    (∀ (now : Time) (sid : String) (store : Store) (s0 : Session),
      GetSessionByID sid store = some s0 →
      now ≤ s0.refreshExpiresAt →
      (∀ s ∈ store, expiryOrdered s) →
      ∀ s' ∈ (InvalidateSession now sid store).2, expiryOrdered s') ∧
    (∀ (now : Time) (store : Store),
      (∀ s ∈ store, expiryOrdered s) →
      ∀ s' ∈ (CleanupExpiredSessions now store).2, expiryOrdered s') := by
  have hnew : ∀ (now : Time) (sid tok uid : String) (ci : ClientInfo),
      expiryOrdered (newSession cfg now sid tok uid ci) := by
    intro now sid tok uid ci
    show now + cfg.sessionTTL ≤ now + cfg.refreshTTL
    exact add_le_add_left hcfg now
  refine ⟨?_, ?_, ?_, ?_, ?_⟩
  · intro now sid tok uid ci store hpre s' hmem
    by_cases hany : (enforceMaxSessions cfg uid store).any
        (fun t => t.id = sid) = true
    · rw [CreateSession_dup hany] at hmem
      exact hpre s' (enforceMaxSessions_subset hmem)
    · rw [CreateSession_fresh (Bool.eq_false_iff.mpr hany)] at hmem
      rcases List.mem_append.mp hmem with h1 | h1
      · exact hpre s' (enforceMaxSessions_subset h1)
      · rw [List.mem_singleton.mp h1]
        exact hnew now sid tok uid ci
  · intro now sid store hpre s' hmem
    cases hg : GetSessionByID sid store with
    | none =>
      rw [ValidateSession_notFound hg] at hmem
      exact hpre s' hmem
    | some s0 =>
      by_cases ha : s0.isActive = true
      · by_cases he : s0.expiresAt < now
        · rw [ValidateSession_expired hg ha he] at hmem
          rcases mem_UpdateSession now _ store hmem with h1 | h1
          · exact hpre s' h1
          · rw [h1]
            show s0.expiresAt ≤ s0.refreshExpiresAt
            exact hpre s0 (GetSessionByID_mem hg)
        · rw [ValidateSession_ok hg ha he] at hmem
          exact hpre s' hmem
      · rw [ValidateSession_inactive hg (Bool.eq_false_iff.mpr ha)] at hmem
        exact hpre s' hmem
  · intro now tok sid store hpre s' hmem
    cases hg : GetSessionByID sid store with
    | none =>
      rw [RefreshSession_notFound hg] at hmem
      exact hpre s' hmem
    | some s0 =>
      by_cases ha : s0.isActive = true
      · by_cases he : s0.refreshExpiresAt < now
        · rw [RefreshSession_expired hg ha he] at hmem
          exact hpre s' hmem
        · rw [RefreshSession_ok hg ha he] at hmem
          rcases mem_UpdateSession now _ store hmem with h1 | h1
          · exact hpre s' h1
          · rw [h1]
            show now + cfg.sessionTTL ≤ now + cfg.refreshTTL
            exact add_le_add_left hcfg now
      · rw [RefreshSession_inactive hg (Bool.eq_false_iff.mpr ha)] at hmem
        exact hpre s' hmem
  · intro now sid store s0 hfind hnow hpre s' hmem
    rw [InvalidateSession_found hfind] at hmem
    rcases mem_UpdateSession now _ store hmem with h1 | h1
    · exact hpre s' h1
    · rw [h1]
      show now ≤ s0.refreshExpiresAt
      exact hnow
  · intro now store hpre s' hmem
    exact hpre s' (List.mem_of_mem_filter hmem)

/-- C6 amended witness: invalidating `sOld` at `now = 50` (before its
refresh expiry 200) keeps the invariant for the record it writes. -/
theorem C6_amended_witness :
    expiryOrdered
      { sOld with isActive := false, expiresAt := 50, updatedAt := 50 } :=
  (C6_amended_expiry_invariant cfg0 (by decide)).2.2.2.1 50 "old" [sOld]
    sOld rfl (by decide) (by decide)
    { sOld with isActive := false, expiresAt := 50, updatedAt := 50 }
    (by decide)

end Claims

namespace Claims

open GormSessionRepository DefaultSessionManager Fixtures

/-- C9: on a store with unique ids (the table's primary key), every
store-mutating Session Manager operation — `CreateSession`,
`ValidateSession`, `RefreshSession`, `InvalidateSession`,
`CleanupExpiredSessions` — leaves no id active that it found inactive:
`active = false` is terminal. (`GetSession` returns no store at all in
the embedding — it is read-only by construction.) -/
theorem C9_inactive_is_terminal (store : Store) (huniq : uniqueIds store) :
    (∀ (cfg : SessionConfig) (now : Time) (sid tok uid : String)
        (ci : ClientInfo),
      noReactivation store (CreateSession cfg now sid tok uid ci store).2) ∧
    (∀ (now : Time) (sid : String),
      noReactivation store (ValidateSession now sid store).2) ∧
    (∀ (cfg : SessionConfig) (now : Time) (tok sid : String),
      noReactivation store (RefreshSession cfg now tok sid store).2) ∧
    (∀ (now : Time) (sid : String),
      noReactivation store (InvalidateSession now sid store).2) ∧
    (∀ now : Time,
      noReactivation store (CleanupExpiredSessions now store).2) := by
  have base : noReactivation store store := by
    intro s' h' ha s hs hid
    rw [eq_of_uniqueIds_mem huniq hs h' hid]
    exact ha
  refine ⟨?_, ?_, ?_, ?_, ?_⟩
  · intro cfg now sid tok uid ci
    by_cases hany : (enforceMaxSessions cfg uid store).any
        (fun t => t.id = sid) = true
    · rw [CreateSession_dup hany]
      intro s' h' ha s hs hid
      exact base s' (enforceMaxSessions_subset h') ha s hs hid
    · have hanyf := Bool.eq_false_iff.mpr hany
      rw [CreateSession_fresh hanyf]
      intro s' h' ha s hs hid
      rcases List.mem_append.mp h' with h1 | h1
      · exact base s' (enforceMaxSessions_subset h1) ha s hs hid
      · rw [List.mem_singleton.mp h1] at hid
        have hid' : s.id = sid := hid
        by_cases hin : s ∈ enforceMaxSessions cfg uid store
        · exact absurd
            (List.any_eq_true.mpr ⟨s, hin, by simpa using hid'⟩) hany
        · exact enforceMaxSessions_removed_active huniq hs hin
  · intro now sid
    cases hg : GetSessionByID sid store with
    | none => rw [ValidateSession_notFound hg]; exact base
    | some s0 =>
      by_cases ha0 : s0.isActive = true
      · by_cases he : s0.expiresAt < now
        · rw [ValidateSession_expired hg ha0 he]
          intro s' h' ha s hs hid
          rcases mem_UpdateSession now _ store h' with h1 | h1
          · exact base s' h1 ha s hs hid
          · rw [h1] at ha
            simp at ha
        · rw [ValidateSession_ok hg ha0 he]; exact base
      · rw [ValidateSession_inactive hg (Bool.eq_false_iff.mpr ha0)]
        exact base
  · intro cfg now tok sid
    cases hg : GetSessionByID sid store with
    | none => rw [RefreshSession_notFound hg]; exact base
    | some s0 =>
      by_cases ha0 : s0.isActive = true
      · by_cases he : s0.refreshExpiresAt < now
        · rw [RefreshSession_expired hg ha0 he]; exact base
        · rw [RefreshSession_ok hg ha0 he]
          intro s' h' ha s hs hid
          rcases mem_UpdateSession now _ store h' with h1 | h1
          · exact base s' h1 ha s hs hid
          · have hid0 : s.id = s0.id := by rw [h1] at hid; exact hid
            rw [eq_of_uniqueIds_mem huniq hs (GetSessionByID_mem hg) hid0]
            exact ha0
      · rw [RefreshSession_inactive hg (Bool.eq_false_iff.mpr ha0)]
        exact base
  · intro now sid
    cases hg : GetSessionByID sid store with
    | none => rw [InvalidateSession_notFound hg]; exact base
    | some s0 =>
      rw [InvalidateSession_found hg]
      intro s' h' ha s hs hid
      rcases mem_UpdateSession now _ store h' with h1 | h1
      · exact base s' h1 ha s hs hid
      · rw [h1] at ha
        simp at ha
  · intro now
    intro s' h' ha s hs hid
    exact base s' (List.mem_of_mem_filter h') ha s hs hid

/-- C9 witness: the invariant instantiated on a two-record store with
one active and one inactive session. -/
theorem C9_witness :
    (∀ (cfg : SessionConfig) (now : Time) (sid tok uid : String)
        (ci : ClientInfo),
      noReactivation [sOld, sInact]
        (CreateSession cfg now sid tok uid ci [sOld, sInact]).2) ∧
    (∀ (now : Time) (sid : String),
      noReactivation [sOld, sInact]
        (ValidateSession now sid [sOld, sInact]).2) ∧
    (∀ (cfg : SessionConfig) (now : Time) (tok sid : String),
      noReactivation [sOld, sInact]
        (RefreshSession cfg now tok sid [sOld, sInact]).2) ∧
    (∀ (now : Time) (sid : String),
      noReactivation [sOld, sInact]
        (InvalidateSession now sid [sOld, sInact]).2) ∧
    (∀ now : Time,
      noReactivation [sOld, sInact]
        (CleanupExpiredSessions now [sOld, sInact]).2) :=
  C9_inactive_is_terminal [sOld, sInact]
    (List.pairwise_cons.mpr
      ⟨fun t ht => by
        rw [List.mem_singleton.mp ht]
        decide,
       List.pairwise_cons.mpr ⟨fun t ht => absurd ht (List.not_mem_nil t),
         List.Pairwise.nil⟩⟩)

/-- C8: every failure any public operation can produce is an error value
(total functions — no panic or abort), and every such error value is
classified by `errKind` into the taxonomy NotFound / Inactive / Expired /
Invalid / PersistenceFailure; the inactive and expired outcomes of
`ValidateSession` map to the distinct kinds `inactive` and `expired`, so
callers can tell them apart. -/
theorem C8_error_taxonomy :
    (∀ (now : Time) (sid : String) (store : Store) (e : String)
        (st' : Store),
      DefaultSessionManager.ValidateSession now sid store = (.error e, st') →
      ∃ k, errKind e = some k) ∧
    (∀ (cfg : SessionConfig) (now : Time) (tok sid : String)
        (store : Store) (e : String) (st' : Store),
      DefaultSessionManager.RefreshSession cfg now tok sid store
        = (.error e, st') →
      ∃ k, errKind e = some k) ∧
    (∀ (sid : String) (store : Store) (e : String),
      DefaultSessionManager.GetSession sid store = .error e →
      errKind e = some .notFound) ∧
    (∀ (now : Time) (sid : String) (store : Store) (e : String)
        (st' : Store),
      DefaultSessionManager.InvalidateSession now sid store
        = (.error e, st') →
      errKind e = some .notFound) ∧
    (∀ (cfg : SessionConfig) (now : Time) (sid tok uid : String)
        (ci : ClientInfo) (store : Store) (e : String) (st' : Store),
      DefaultSessionManager.CreateSession cfg now sid tok uid ci store
        = (.error e, st') →
      errKind e = some .persistence) ∧
    (∀ (now : Time) (store : Store),
      (DefaultSessionManager.CleanupExpiredSessions now store).1 = .ok ()) ∧
    (∀ (now : Time) (value : String) (st : NonceState) (e : String)
        (st' : NonceState),
      InMemoryNonceValidator.Validate now value st = (.error e, st') →
      errKind e = some .invalid ∨ errKind e = some .expired) ∧
    (∀ (now : Time) (sid : String) (store : Store) (s : Session),
      GormSessionRepository.GetSessionByID sid store = some s →
      s.isActive = false →
      (DefaultSessionManager.ValidateSession now sid store).1
          = .error "session is inactive" ∧
      errKind "session is inactive" = some .inactive) ∧
    (∀ (now : Time) (sid : String) (store : Store) (s : Session),
      GormSessionRepository.GetSessionByID sid store = some s →
      s.isActive = true → s.expiresAt < now →
      (DefaultSessionManager.ValidateSession now sid store).1
          = .error "session expired" ∧
      errKind "session expired" = some .expired) ∧
    ErrKind.inactive ≠ ErrKind.expired := by
  refine ⟨?_, ?_, ?_, ?_, ?_, ?_, ?_, ?_, ?_, by decide⟩
  · intro now sid store e st' h
    cases hg : GetSessionByID sid store with
    | none =>
      rw [ValidateSession_notFound hg] at h
      have he : e = "failed to get session: record not found" :=
        (Except.error.inj (congrArg Prod.fst h)).symm
      exact ⟨.notFound, by rw [he]; decide⟩
    | some s0 =>
      by_cases ha : s0.isActive = true
      · by_cases hex : s0.expiresAt < now
        · rw [ValidateSession_expired hg ha hex] at h
          have he : e = "session expired" :=
            (Except.error.inj (congrArg Prod.fst h)).symm
          exact ⟨.expired, by rw [he]; decide⟩
        · rw [ValidateSession_ok hg ha hex] at h
          exact Except.noConfusion (congrArg Prod.fst h)
      · rw [ValidateSession_inactive hg (Bool.eq_false_iff.mpr ha)] at h
        have he : e = "session is inactive" :=
          (Except.error.inj (congrArg Prod.fst h)).symm
        exact ⟨.inactive, by rw [he]; decide⟩
  · intro cfg now tok sid store e st' h
    cases hg : GetSessionByID sid store with
    | none =>
      rw [RefreshSession_notFound hg] at h
      have he : e = "failed to get session: record not found" :=
        (Except.error.inj (congrArg Prod.fst h)).symm
      exact ⟨.notFound, by rw [he]; decide⟩
    | some s0 =>
      by_cases ha : s0.isActive = true
      · by_cases hex : s0.refreshExpiresAt < now
        · rw [RefreshSession_expired hg ha hex] at h
          have he : e = "refresh token expired" :=
            (Except.error.inj (congrArg Prod.fst h)).symm
          exact ⟨.expired, by rw [he]; decide⟩
        · rw [RefreshSession_ok hg ha hex] at h
          exact Except.noConfusion (congrArg Prod.fst h)
      · rw [RefreshSession_inactive hg (Bool.eq_false_iff.mpr ha)] at h
        have he : e = "session is inactive" :=
          (Except.error.inj (congrArg Prod.fst h)).symm
        exact ⟨.inactive, by rw [he]; decide⟩
  · intro sid store e h
    cases hg : GetSessionByID sid store with
    | none =>
      rw [GetSession_none hg] at h
      have he : e = "failed to get session: record not found" :=
        (Except.error.inj h).symm
      rw [he]
      decide
    | some s0 =>
      rw [GetSession_some hg] at h
      exact Except.noConfusion h
  · intro now sid store e st' h
    cases hg : GetSessionByID sid store with
    | none =>
      rw [InvalidateSession_notFound hg] at h
      have he : e = "failed to get session: record not found" :=
        (Except.error.inj (congrArg Prod.fst h)).symm
      rw [he]
      decide
    | some s0 =>
      rw [InvalidateSession_found hg] at h
      exact Except.noConfusion (congrArg Prod.fst h)
  · intro cfg now sid tok uid ci store e st' h
    by_cases hany : (enforceMaxSessions cfg uid store).any
        (fun t => t.id = sid) = true
    · rw [CreateSession_dup hany] at h
      have he : e = "failed to create session: duplicate key" :=
        (Except.error.inj (congrArg Prod.fst h)).symm
      rw [he]
      decide
    · rw [CreateSession_fresh (Bool.eq_false_iff.mpr hany)] at h
      exact Except.noConfusion (congrArg Prod.fst h)
  · intro now store
    rfl
  · intro now value st e st' h
    cases hl : InMemoryNonceValidator.lookup value st with
    | none =>
      rw [InMemoryNonceValidator.Validate_none now value st hl] at h
      have he : e = "invalid nonce" :=
        (Except.error.inj (congrArg Prod.fst h)).symm
      left
      rw [he]
      decide
    | some exp =>
      rw [InMemoryNonceValidator.Validate_some now value st exp hl] at h
      by_cases hex : exp < now
      · rw [if_pos hex] at h
        have he : e = "nonce expired" :=
          (Except.error.inj (congrArg Prod.fst h)).symm
        right
        rw [he]
        decide
      · rw [if_neg hex] at h
        exact Except.noConfusion (congrArg Prod.fst h)
  · intro now sid store s hg ha
    refine ⟨?_, by decide⟩
    rw [ValidateSession_inactive hg ha]
  · intro now sid store s hg ha hex
    refine ⟨?_, by decide⟩
    rw [ValidateSession_expired hg ha hex]

/-- C8 witness: the inactive session `sInact` produces the error kind
`inactive` under `errKind`. -/
theorem C8_witness :
    (DefaultSessionManager.ValidateSession 0 "inact" [sInact]).1
        = .error "session is inactive" ∧
    errKind "session is inactive" = some .inactive :=
  C8_error_taxonomy.2.2.2.2.2.2.2.1 0 "inact" [sInact] sInact rfl rfl

end Claims

end Shield
